import Mathlib

/-!
Verification of the WebCrawl plugin (`src/plugin.py`).

The plugin exposes two tools, `WebSearchTool` (`search_web`) and
`UrlCrawlTool` (`crawl_url`).  Each builds an HTTP request (headers and a
JSON body) from a nested configuration object, issues a single POST, and
wraps either the raw response text or a failure message into a result
mapping `{name, content}`.

Shallow embedding choices:
* The nested `plugin_config` mapping becomes the structures
  `ProviderConfig`, `SearchConfig`, `ExtractConfig`, `PluginConfig`,
  with exactly the fields the code reads.
* A Python dict built by successive assignments of distinct keys becomes
  an association list `List (String × α)` in assignment order; lookup is
  `getField` (first match — keys are pairwise distinct in every branch,
  mirroring dict semantics).
* The single `aiohttp` POST becomes a function argument
  `post : Request → HttpOutcome`; its outcome is either a `response`
  with a numeric status and body text, or `netError` standing for any
  other exception raised during the call (whose message Python's
  `str(e)` yields).
* `function_args.get("keywords")` / `.get("url")` may yield `None` when
  the key is missing, hence the argument is an `Option String`; JSON
  body values are likewise `Option String` (`none` = JSON `null`).
-/

namespace WebCrawl

/-- `provider` configuration section. -/
structure ProviderConfig where
  jina_api_key : String
deriving Repr, DecidableEq

/-- `search` configuration section, fields exactly as read by `WebSearchTool.search`. -/
structure SearchConfig where
  search_nation : String
  search_language : String
  crawl_details : Bool
  timeout : Int
  engine_mode : String
  remove_pictures : Bool
  move_links_to_end : Bool
  move_pics_to_end : Bool
  add_pic_alt : Bool
deriving Repr, DecidableEq

/-- `extract` configuration section, fields exactly as read by `UrlCrawlTool.crawl`. -/
structure ExtractConfig where
  timeout : Int
  follow_redirect : Bool
  use_custom_prehandler_scripts : Bool
  custom_prehandler_scripts_list : List String
  include_shadow_dom : Bool
  include_iframes : Bool
  remove_pictures : Bool
  use_readerlm_v2 : Bool
  move_links_to_end : Bool
  move_pics_to_end : Bool
  add_pic_alt : Bool
  optimize_for_gpt_oss : Bool
  engine_mode : String
deriving Repr, DecidableEq

/-- The whole `plugin_config` mapping. -/
structure PluginConfig where
  provider : ProviderConfig
  search : SearchConfig
  extract : ExtractConfig
deriving Repr, DecidableEq

/-- Outcome of the single HTTP POST a tool issues: a response with numeric
status and body text, or any other exception raised during the call. -/
inductive HttpOutcome where
  | response (status : Nat) (body : String)
  | netError (msg : String)
deriving Repr, DecidableEq

/-- A built HTTP request: endpoint URL, header mapping, JSON body mapping
(`none` values encode JSON `null`). -/
structure Request where
  endpoint : String
  headers : List (String × String)
  body : List (String × Option String)
deriving Repr, DecidableEq

/-- The `{name, content}` mapping a tool's `execute` returns. -/
structure ToolResult where
  name : String
  content : String
deriving Repr, DecidableEq

/-- Dict lookup on an association list (first match; keys are pairwise
distinct in every branch the code builds). -/
def getField {α : Type} (l : List (String × α)) (k : String) : Option α :=
  l.lookup k

/-- One conditional dict assignment `if c: d[k] = v`. -/
def hdr (c : Prop) [Decidable c] (k v : String) : List (String × String) :=
  if c then [(k, v)] else []

/-- The `match engine_mode: case "fast" / case "quality"` header choice,
shared verbatim by both tools. -/
def engineHeader (em : String) : List (String × String) :=
  if em = "fast" then [("X-Engine", "direct")]
  else if em = "quality" then [("X-Engine", "browser")]
  else []

/-- Detail headers of `WebSearchTool.search`, set only when `crawl_details`. -/
def searchDetailHeaders (s : SearchConfig) : List (String × String) :=
  engineHeader s.engine_mode ++
  hdr (s.timeout > 0) "X-Timeout" (toString s.timeout) ++
  hdr s.remove_pictures "X-Retain-Images" "none" ++
  hdr s.move_links_to_end "X-With-Links-Summary" "true" ++
  hdr s.move_pics_to_end "X-With-Images-Summary" "true" ++
  hdr s.add_pic_alt "X-With-Generated-Alt" "true"

/-- Header mapping built by `WebSearchTool.search` (plugin.py lines 38-68). -/
def searchHeaders (cfg : PluginConfig) : List (String × String) :=
  [("Authorization", "Bearer " ++ cfg.provider.jina_api_key),
   ("Content-Type", "application/json")] ++
  (if cfg.search.crawl_details then searchDetailHeaders cfg.search
   else [("X-Respond-With", "no-content")])

/-- JSON body built by `WebSearchTool.search` (plugin.py lines 42-49):
`{q: kw}` plus optional `gl`/`hl` when the configured value differs from
the `"not-specified"` sentinel. -/
def searchBody (cfg : PluginConfig) (kw : Option String) :
    List (String × Option String) :=
  [("q", kw)] ++
  (if cfg.search.search_nation ≠ "not-specified"
   then [("gl", some cfg.search.search_nation)] else []) ++
  (if cfg.search.search_language ≠ "not-specified"
   then [("hl", some cfg.search.search_language)] else [])

/-- Custom pre-handler script headers of `UrlCrawlTool.crawl`
(plugin.py lines 131-136).  Python list truthiness: the list header is set
only when the list is non-empty. -/
def prehandlerHeaders (e : ExtractConfig) : List (String × String) :=
  if e.use_custom_prehandler_scripts then
    ("X-Use-Custom-Prehandler-Scripts", "true") ::
    (if e.custom_prehandler_scripts_list.isEmpty then []
     else [("X-Custom-Prehandler-Scripts-List",
            String.intercalate "," e.custom_prehandler_scripts_list)])
  else []

/-- Header mapping built by `UrlCrawlTool.crawl` (plugin.py lines 114-152). -/
def crawlHeaders (cfg : PluginConfig) : List (String × String) :=
  [("Authorization", "Bearer " ++ cfg.provider.jina_api_key),
   ("Content-Type", "application/json")] ++
  engineHeader cfg.extract.engine_mode ++
  hdr (cfg.extract.timeout > 0) "X-Timeout" (toString cfg.extract.timeout) ++
  hdr cfg.extract.follow_redirect "X-Follow-Redirects" "true" ++
  prehandlerHeaders cfg.extract ++
  hdr cfg.extract.include_shadow_dom "X-Include-Shadow-DOM" "true" ++
  hdr cfg.extract.include_iframes "X-Include-Iframes" "true" ++
  hdr cfg.extract.remove_pictures "X-Retain-Images" "none" ++
  hdr cfg.extract.use_readerlm_v2 "X-Use-ReaderLM-V2" "true" ++
  hdr cfg.extract.move_links_to_end "X-With-Links-Summary" "true" ++
  hdr cfg.extract.move_pics_to_end "X-With-Images-Summary" "true" ++
  hdr cfg.extract.add_pic_alt "X-With-Generated-Alt" "true" ++
  hdr cfg.extract.optimize_for_gpt_oss "X-Optimize-For-GPT-OSS" "true"

/-- JSON body built by `UrlCrawlTool.crawl`: `{url: url}`. -/
def crawlBody (url : Option String) : List (String × Option String) :=
  [("url", url)]

namespace WebSearchTool

/-- `WebSearchTool.name`. -/
def name : String := "search_web"

/-- The request `WebSearchTool.search` builds and sends. -/
def request (cfg : PluginConfig) (kw : Option String) : Request :=
  { endpoint := "https://s.jina.ai/",
    headers := searchHeaders cfg,
    body := searchBody cfg kw }

/-- `WebSearchTool.search` (plugin.py lines 36-77): build the request,
issue the POST, return the body text on status 200, otherwise raise
an exception whose message embeds the status code. -/
def search (cfg : PluginConfig) (kw : Option String)
    (post : Request → HttpOutcome) : Except String String :=
  match post (request cfg kw) with
  | .response status body =>
      if status = 200 then .ok body
      else .error ("搜索请求失败，状态码: " ++ toString status)
  | .netError m => .error m

/-- `WebSearchTool.execute` (plugin.py lines 79-94): call `search`, wrap
the result; any exception is caught and re-wrapped as a content string. -/
def execute (cfg : PluginConfig) (kw : Option String)
    (post : Request → HttpOutcome) : ToolResult :=
  match search cfg kw post with
  | .ok r => { name := name, content := r }
  | .error e => { name := name, content := "搜索失败: " ++ e }

end WebSearchTool

namespace UrlCrawlTool

/-- `UrlCrawlTool.name`. -/
def name : String := "crawl_url"

/-- The request `UrlCrawlTool.crawl` builds and sends. -/
def request (cfg : PluginConfig) (url : Option String) : Request :=
  { endpoint := "https://r.jina.ai/",
    headers := crawlHeaders cfg,
    body := crawlBody url }

/-- `UrlCrawlTool.crawl` (plugin.py lines 112-161). -/
def crawl (cfg : PluginConfig) (url : Option String)
    (post : Request → HttpOutcome) : Except String String :=
  match post (request cfg url) with
  | .response status body =>
      if status = 200 then .ok body
      else .error ("内容提取请求失败，状态码: " ++ toString status)
  | .netError m => .error m

/-- `UrlCrawlTool.execute` (plugin.py lines 163-178). -/
def execute (cfg : PluginConfig) (url : Option String)
    (post : Request → HttpOutcome) : ToolResult :=
  match crawl cfg url post with
  | .ok r => { name := name, content := r }
  | .error e => { name := name, content := "内容提取失败: " ++ e }

end UrlCrawlTool

/-! ### Lookup helper lemmas -/

theorem getField_nil {α : Type} (k : String) :
    getField ([] : List (String × α)) k = none := rfl

theorem getField_cons_self {α : Type} (k : String) (v : α)
    (t : List (String × α)) : getField ((k, v) :: t) k = some v := by
  simp [getField, List.lookup]

theorem getField_cons_ne {α : Type} (k k1 : String) (v : α)
    (t : List (String × α)) (h : k ≠ k1) :
    getField ((k1, v) :: t) k = getField t k := by
  have hb : (k == k1) = false := beq_eq_false_iff_ne.mpr h
  simp [getField, List.lookup, hb]

theorem getField_append {α : Type} (l1 l2 : List (String × α)) (k : String) :
    getField (l1 ++ l2) k = (getField l1 k).or (getField l2 k) := by
  induction l1 with
  | nil => simp [getField, List.lookup]
  | cons p t ih =>
      obtain ⟨k1, v⟩ := p
      by_cases h : k = k1
      · subst h; simp [getField, List.lookup]
      · have hb : (k == k1) = false := beq_eq_false_iff_ne.mpr h
        simpa [getField, List.lookup, hb] using ih

theorem getField_hdr_self (c : Prop) [Decidable c] (k v : String) :
    getField (hdr c k v) k = if c then some v else none := by
  unfold hdr; split <;> simp [getField, List.lookup, getField_nil]

theorem getField_hdr_ne (c : Prop) [Decidable c] (k k1 v : String)
    (h : k ≠ k1) : getField (hdr c k1 v) k = none := by
  have hb : (k == k1) = false := beq_eq_false_iff_ne.mpr h
  unfold hdr; split <;> simp [getField, List.lookup, hb]

theorem getField_engine (em : String) :
    getField (engineHeader em) "X-Engine" =
      (if em = "fast" then some "direct"
       else if em = "quality" then some "browser" else none) := by
  unfold engineHeader
  split
  · simp [getField, List.lookup]
  · split <;> simp [getField, List.lookup]

theorem getField_engine_ne (em k : String) (h : k ≠ "X-Engine") :
    getField (engineHeader em) k = none := by
  have hb : (k == "X-Engine") = false := beq_eq_false_iff_ne.mpr h
  unfold engineHeader
  split
  · simp [getField, List.lookup, hb]
  · split <;> simp [getField, List.lookup, hb]

theorem getField_prehandler_use (e : ExtractConfig) :
    getField (prehandlerHeaders e) "X-Use-Custom-Prehandler-Scripts" =
      (if e.use_custom_prehandler_scripts then some "true" else none) := by
  unfold prehandlerHeaders
  split <;> simp_all [getField_cons_self, getField_nil]

theorem getField_prehandler_list (e : ExtractConfig) :
    getField (prehandlerHeaders e) "X-Custom-Prehandler-Scripts-List" =
      (if e.use_custom_prehandler_scripts ∧ e.custom_prehandler_scripts_list ≠ []
       then some (String.intercalate "," e.custom_prehandler_scripts_list)
       else none) := by
  unfold prehandlerHeaders
  split
  · split <;>
      simp_all [getField_cons_ne, getField_cons_self, getField_nil,
        List.isEmpty_iff]
  · simp_all [getField_nil]

theorem getField_prehandler_ne (e : ExtractConfig) (k : String)
    (h1 : k ≠ "X-Use-Custom-Prehandler-Scripts")
    (h2 : k ≠ "X-Custom-Prehandler-Scripts-List") :
    getField (prehandlerHeaders e) k = none := by
  unfold prehandlerHeaders
  split
  · split <;> simp_all [getField_cons_ne, getField_nil]
  · simp [getField_nil]

/-! ### Per-key characterizations of the built header mappings -/

theorem searchHeaders_auth (cfg : PluginConfig) :
    getField (searchHeaders cfg) "Authorization" =
      some ("Bearer " ++ cfg.provider.jina_api_key) := by
  simp [searchHeaders, getField_append, getField_cons_self]

theorem searchHeaders_content_type (cfg : PluginConfig) :
    getField (searchHeaders cfg) "Content-Type" = some "application/json" := by
  simp [searchHeaders, getField_append, getField_cons_ne, getField_cons_self]

theorem searchHeaders_engine_char (cfg : PluginConfig)
    (h : cfg.search.crawl_details = true) :
    getField (searchHeaders cfg) "X-Engine" =
      (if cfg.search.engine_mode = "fast" then some "direct"
       else if cfg.search.engine_mode = "quality" then some "browser"
       else none) := by
  simp [searchHeaders, searchDetailHeaders, h, getField_append,
    getField_cons_ne, getField_hdr_ne, getField_engine, getField_nil]

theorem searchHeaders_timeout_char (cfg : PluginConfig)
    (h : cfg.search.crawl_details = true) :
    getField (searchHeaders cfg) "X-Timeout" =
      (if cfg.search.timeout > 0 then some (toString cfg.search.timeout)
       else none) := by
  simp [searchHeaders, searchDetailHeaders, h, getField_append,
    getField_cons_ne, getField_hdr_ne, getField_hdr_self,
    getField_engine_ne, getField_nil]

theorem searchHeaders_retain_char (cfg : PluginConfig)
    (h : cfg.search.crawl_details = true) :
    getField (searchHeaders cfg) "X-Retain-Images" =
      (if cfg.search.remove_pictures then some "none" else none) := by
  simp [searchHeaders, searchDetailHeaders, h, getField_append,
    getField_cons_ne, getField_hdr_ne, getField_hdr_self,
    getField_engine_ne, getField_nil]

theorem searchHeaders_links_char (cfg : PluginConfig)
    (h : cfg.search.crawl_details = true) :
    getField (searchHeaders cfg) "X-With-Links-Summary" =
      (if cfg.search.move_links_to_end then some "true" else none) := by
  simp [searchHeaders, searchDetailHeaders, h, getField_append,
    getField_cons_ne, getField_hdr_ne, getField_hdr_self,
    getField_engine_ne, getField_nil]

theorem searchHeaders_pics_char (cfg : PluginConfig)
    (h : cfg.search.crawl_details = true) :
    getField (searchHeaders cfg) "X-With-Images-Summary" =
      (if cfg.search.move_pics_to_end then some "true" else none) := by
  simp [searchHeaders, searchDetailHeaders, h, getField_append,
    getField_cons_ne, getField_hdr_ne, getField_hdr_self,
    getField_engine_ne, getField_nil]

theorem searchHeaders_alt_char (cfg : PluginConfig)
    (h : cfg.search.crawl_details = true) :
    getField (searchHeaders cfg) "X-With-Generated-Alt" =
      (if cfg.search.add_pic_alt then some "true" else none) := by
  simp [searchHeaders, searchDetailHeaders, h, getField_append,
    getField_cons_ne, getField_hdr_ne, getField_hdr_self,
    getField_engine_ne, getField_nil]

theorem crawlHeaders_auth (cfg : PluginConfig) :
    getField (crawlHeaders cfg) "Authorization" =
      some ("Bearer " ++ cfg.provider.jina_api_key) := by
  simp [crawlHeaders, getField_append, getField_cons_self]

theorem crawlHeaders_content_type (cfg : PluginConfig) :
    getField (crawlHeaders cfg) "Content-Type" = some "application/json" := by
  simp [crawlHeaders, getField_append, getField_cons_ne, getField_cons_self]

theorem crawlHeaders_engine_char (cfg : PluginConfig) :
    getField (crawlHeaders cfg) "X-Engine" =
      (if cfg.extract.engine_mode = "fast" then some "direct"
       else if cfg.extract.engine_mode = "quality" then some "browser"
       else none) := by
  simp [crawlHeaders, getField_append, getField_cons_ne, getField_hdr_ne,
    getField_engine, getField_prehandler_ne, getField_nil]

theorem crawlHeaders_timeout_char (cfg : PluginConfig) :
    getField (crawlHeaders cfg) "X-Timeout" =
      (if cfg.extract.timeout > 0 then some (toString cfg.extract.timeout)
       else none) := by
  simp [crawlHeaders, getField_append, getField_cons_ne, getField_hdr_ne,
    getField_hdr_self, getField_engine_ne, getField_prehandler_ne,
    getField_nil]

theorem crawlHeaders_follow_char (cfg : PluginConfig) :
    getField (crawlHeaders cfg) "X-Follow-Redirects" =
      (if cfg.extract.follow_redirect then some "true" else none) := by
  simp [crawlHeaders, getField_append, getField_cons_ne, getField_hdr_ne,
    getField_hdr_self, getField_engine_ne, getField_prehandler_ne,
    getField_nil]

theorem crawlHeaders_use_scripts_char (cfg : PluginConfig) :
    getField (crawlHeaders cfg) "X-Use-Custom-Prehandler-Scripts" =
      (if cfg.extract.use_custom_prehandler_scripts then some "true"
       else none) := by
  simp [crawlHeaders, getField_append, getField_cons_ne, getField_hdr_ne,
    getField_engine_ne, getField_prehandler_use, getField_nil]

theorem crawlHeaders_scripts_list_char (cfg : PluginConfig) :
    getField (crawlHeaders cfg) "X-Custom-Prehandler-Scripts-List" =
      (if cfg.extract.use_custom_prehandler_scripts ∧
          cfg.extract.custom_prehandler_scripts_list ≠ []
       then some (String.intercalate ","
              cfg.extract.custom_prehandler_scripts_list)
       else none) := by
  simp [crawlHeaders, getField_append, getField_cons_ne, getField_hdr_ne,
    getField_engine_ne, getField_prehandler_list, getField_nil]

theorem crawlHeaders_shadow_char (cfg : PluginConfig) :
    getField (crawlHeaders cfg) "X-Include-Shadow-DOM" =
      (if cfg.extract.include_shadow_dom then some "true" else none) := by
  simp [crawlHeaders, getField_append, getField_cons_ne, getField_hdr_ne,
    getField_hdr_self, getField_engine_ne, getField_prehandler_ne,
    getField_nil]

theorem crawlHeaders_iframes_char (cfg : PluginConfig) :
    getField (crawlHeaders cfg) "X-Include-Iframes" =
      (if cfg.extract.include_iframes then some "true" else none) := by
  simp [crawlHeaders, getField_append, getField_cons_ne, getField_hdr_ne,
    getField_hdr_self, getField_engine_ne, getField_prehandler_ne,
    getField_nil]

theorem crawlHeaders_retain_char (cfg : PluginConfig) :
    getField (crawlHeaders cfg) "X-Retain-Images" =
      (if cfg.extract.remove_pictures then some "none" else none) := by
  simp [crawlHeaders, getField_append, getField_cons_ne, getField_hdr_ne,
    getField_hdr_self, getField_engine_ne, getField_prehandler_ne,
    getField_nil]

theorem crawlHeaders_readerlm_char (cfg : PluginConfig) :
    getField (crawlHeaders cfg) "X-Use-ReaderLM-V2" =
      (if cfg.extract.use_readerlm_v2 then some "true" else none) := by
  simp [crawlHeaders, getField_append, getField_cons_ne, getField_hdr_ne,
    getField_hdr_self, getField_engine_ne, getField_prehandler_ne,
    getField_nil]

theorem crawlHeaders_links_char (cfg : PluginConfig) :
    getField (crawlHeaders cfg) "X-With-Links-Summary" =
      (if cfg.extract.move_links_to_end then some "true" else none) := by
  simp [crawlHeaders, getField_append, getField_cons_ne, getField_hdr_ne,
    getField_hdr_self, getField_engine_ne, getField_prehandler_ne,
    getField_nil]

theorem crawlHeaders_pics_char (cfg : PluginConfig) :
    getField (crawlHeaders cfg) "X-With-Images-Summary" =
      (if cfg.extract.move_pics_to_end then some "true" else none) := by
  simp [crawlHeaders, getField_append, getField_cons_ne, getField_hdr_ne,
    getField_hdr_self, getField_engine_ne, getField_prehandler_ne,
    getField_nil]

theorem crawlHeaders_alt_char (cfg : PluginConfig) :
    getField (crawlHeaders cfg) "X-With-Generated-Alt" =
      (if cfg.extract.add_pic_alt then some "true" else none) := by
  simp [crawlHeaders, getField_append, getField_cons_ne, getField_hdr_ne,
    getField_hdr_self, getField_engine_ne, getField_prehandler_ne,
    getField_nil]

theorem crawlHeaders_optimize_char (cfg : PluginConfig) :
    getField (crawlHeaders cfg) "X-Optimize-For-GPT-OSS" =
      (if cfg.extract.optimize_for_gpt_oss then some "true" else none) := by
  simp [crawlHeaders, getField_append, getField_cons_ne, getField_hdr_ne,
    getField_hdr_self, getField_engine_ne, getField_prehandler_ne,
    getField_nil]

/-- A concrete configuration with the defaults declared in the plugin's
`config_schema`, used by witnesses. -/
def cfgDefault : PluginConfig :=
  { provider := { jina_api_key := "" },
    search :=
      { search_nation := "CN",
        search_language := "zh-cn",
        crawl_details := false,
        timeout := 10,
        engine_mode := "default",
        remove_pictures := true,
        move_links_to_end := true,
        move_pics_to_end := true,
        add_pic_alt := true },
    extract :=
      { timeout := 10,
        follow_redirect := true,
        use_custom_prehandler_scripts := false,
        custom_prehandler_scripts_list := [],
        include_shadow_dom := false,
        include_iframes := false,
        remove_pictures := true,
        use_readerlm_v2 := false,
        move_links_to_end := true,
        move_pics_to_end := true,
        add_pic_alt := true,
        optimize_for_gpt_oss := false,
        engine_mode := "default" } }

/-- A concrete configuration exercising both branches of most toggles,
used by witnesses: search details enabled with `fast` engine, extract with
`quality` engine, a negative extract timeout, and custom pre-handler
scripts `["a", "b"]`. -/
def cfgFast : PluginConfig :=
  { provider := { jina_api_key := "k3y" },
    search :=
      { search_nation := "not-specified",
        search_language := "zh-cn",
        crawl_details := true,
        timeout := 7,
        engine_mode := "fast",
        remove_pictures := true,
        move_links_to_end := false,
        move_pics_to_end := true,
        add_pic_alt := false },
    extract :=
      { timeout := -3,
        follow_redirect := false,
        use_custom_prehandler_scripts := true,
        custom_prehandler_scripts_list := ["a", "b"],
        include_shadow_dom := true,
        include_iframes := false,
        remove_pictures := false,
        use_readerlm_v2 := true,
        move_links_to_end := true,
        move_pics_to_end := false,
        add_pic_alt := true,
        optimize_for_gpt_oss := false,
        engine_mode := "quality" } }

/-- A boolean toggle `t` emitting header value `v` satisfies the
presence/absence biconditionals. -/
theorem toggle_iff (t : Bool) (v : String) (o : Option String)
    (hchar : o = if t then some v else none) :
    (t = true ↔ o = some v) ∧ (t = false ↔ o = none) := by
  cases t <;> simp_all

/-! ### Claim theorems -/

/-- C1: for every configuration, every argument value (including `none`,
which `function_args.get` yields when the required key is missing) and
every outcome of the single HTTP POST, `execute` of each tool returns a
`{name, content}` mapping whose `name` is the tool's fixed name and whose
`content` is a string: either the 200 response body, or a failure message
wrapped with the tool's failure prefix.  No exception crosses the
tool-call boundary. -/
theorem execute_always_returns_wrapped (cfg : PluginConfig)
    (kw url : Option String) (post : Request → HttpOutcome) :
    (WebSearchTool.execute cfg kw post).name = WebSearchTool.name ∧
    (UrlCrawlTool.execute cfg url post).name = UrlCrawlTool.name ∧
    ((∃ b, post (WebSearchTool.request cfg kw) = .response 200 b ∧
        (WebSearchTool.execute cfg kw post).content = b) ∨
     (∃ m, (WebSearchTool.execute cfg kw post).content = "搜索失败: " ++ m)) ∧
    ((∃ b, post (UrlCrawlTool.request cfg url) = .response 200 b ∧
        (UrlCrawlTool.execute cfg url post).content = b) ∨
     (∃ m, (UrlCrawlTool.execute cfg url post).content =
        "内容提取失败: " ++ m)) := by
  refine ⟨?_, ?_, ?_, ?_⟩
  · cases h : WebSearchTool.search cfg kw post <;>
      simp [WebSearchTool.execute, h]
  · cases h : UrlCrawlTool.crawl cfg url post <;>
      simp [UrlCrawlTool.execute, h]
  · cases ho : post (WebSearchTool.request cfg kw) with
    | response status body =>
        by_cases hs : status = 200
        · subst hs
          exact Or.inl ⟨body, rfl,
            by simp [WebSearchTool.execute, WebSearchTool.search, ho]⟩
        · exact Or.inr ⟨"搜索请求失败，状态码: " ++ toString status,
            by simp [WebSearchTool.execute, WebSearchTool.search, ho, hs]⟩
    | netError m =>
        exact Or.inr ⟨m,
          by simp [WebSearchTool.execute, WebSearchTool.search, ho]⟩
  · cases ho : post (UrlCrawlTool.request cfg url) with
    | response status body =>
        by_cases hs : status = 200
        · subst hs
          exact Or.inl ⟨body, rfl,
            by simp [UrlCrawlTool.execute, UrlCrawlTool.crawl, ho]⟩
        · exact Or.inr ⟨"内容提取请求失败，状态码: " ++ toString status,
            by simp [UrlCrawlTool.execute, UrlCrawlTool.crawl, ho, hs]⟩
    | netError m =>
        exact Or.inr ⟨m,
          by simp [UrlCrawlTool.execute, UrlCrawlTool.crawl, ho]⟩

/-- C2: whenever the upstream response has status 200, each tool returns
the response body verbatim as `content`, paired with its tool name — for
body `b` the result is exactly `{name := "search_web", content := b}`
(resp. `{name := "crawl_url", content := b}`). -/
theorem status_200_returns_body_verbatim (cfg : PluginConfig)
    (kw url : Option String) (b : String) :
    WebSearchTool.execute cfg kw (fun _ => .response 200 b) =
      { name := "search_web", content := b } ∧
    UrlCrawlTool.execute cfg url (fun _ => .response 200 b) =
      { name := "crawl_url", content := b } := by
  constructor <;> rfl

/-- C3: for every non-200 status `s`, the search tool returns
`{name := "search_web", content := "搜索失败: 搜索请求失败，状态码: s"}`
and the extract tool returns
`{name := "crawl_url", content := "内容提取失败: 内容提取请求失败，状态码: s"}`. -/
theorem non_200_yields_status_message (cfg : PluginConfig)
    (kw url : Option String) (s : Nat) (b : String) (h : s ≠ 200) :
    WebSearchTool.execute cfg kw (fun _ => .response s b) =
      { name := "search_web",
        content := "搜索失败: 搜索请求失败，状态码: " ++ toString s } ∧
    UrlCrawlTool.execute cfg url (fun _ => .response s b) =
      { name := "crawl_url",
        content := "内容提取失败: 内容提取请求失败，状态码: " ++ toString s } := by
  constructor
  · simp [WebSearchTool.execute, WebSearchTool.search, WebSearchTool.name, h]
    rw [← String.append_assoc]; congr 1
  · simp [UrlCrawlTool.execute, UrlCrawlTool.crawl, UrlCrawlTool.name, h]
    rw [← String.append_assoc]; congr 1

/-- C3 witness: at status 500 the search tool yields exactly the
specified failure mapping, and the extract tool its analog. -/
theorem non_200_yields_status_message_witness :
    WebSearchTool.execute cfgDefault (some "k") (fun _ => .response 500 "b") =
      { name := "search_web", content := "搜索失败: 搜索请求失败，状态码: 500" } ∧
    UrlCrawlTool.execute cfgDefault (some "u") (fun _ => .response 500 "b") =
      { name := "crawl_url",
        content := "内容提取失败: 内容提取请求失败，状态码: 500" } :=
  non_200_yields_status_message cfgDefault (some "k") (some "u") 500 "b"
    (by decide)

/-- C4: with `crawl_details = false` the search headers contain
`X-Respond-With = no-content` and none of the six per-result detail
headers, whatever the other search settings are. -/
theorem crawl_details_false_headers (cfg : PluginConfig)
    (h : cfg.search.crawl_details = false) :
    getField (searchHeaders cfg) "X-Respond-With" = some "no-content" ∧
    getField (searchHeaders cfg) "X-Engine" = none ∧
    getField (searchHeaders cfg) "X-Timeout" = none ∧
    getField (searchHeaders cfg) "X-Retain-Images" = none ∧
    getField (searchHeaders cfg) "X-With-Links-Summary" = none ∧
    getField (searchHeaders cfg) "X-With-Images-Summary" = none ∧
    getField (searchHeaders cfg) "X-With-Generated-Alt" = none := by
  refine ⟨?_, ?_, ?_, ?_, ?_, ?_, ?_⟩ <;>
    simp [searchHeaders, h, getField_append, getField_cons_ne,
      getField_cons_self, getField_nil]

/-- C4 witness: the default configuration has `crawl_details = false` and
its search headers are metadata-only. -/
theorem crawl_details_false_headers_witness :
    getField (searchHeaders cfgDefault) "X-Respond-With" = some "no-content" ∧
    getField (searchHeaders cfgDefault) "X-Engine" = none ∧
    getField (searchHeaders cfgDefault) "X-Timeout" = none ∧
    getField (searchHeaders cfgDefault) "X-Retain-Images" = none ∧
    getField (searchHeaders cfgDefault) "X-With-Links-Summary" = none ∧
    getField (searchHeaders cfgDefault) "X-With-Images-Summary" = none ∧
    getField (searchHeaders cfgDefault) "X-With-Generated-Alt" = none :=
  crawl_details_false_headers cfgDefault rfl

/-- C5: with `crawl_details = true`, search `engine_mode = "fast"` puts
`X-Engine = direct`, `"quality"` puts `X-Engine = browser`, and any other
value omits the header; the extract tool applies the same three-way
mapping unconditionally. -/
theorem engine_mode_header_mapping (cfg : PluginConfig) :
    (cfg.search.crawl_details = true →
      (cfg.search.engine_mode = "fast" →
         getField (searchHeaders cfg) "X-Engine" = some "direct") ∧
      (cfg.search.engine_mode = "quality" →
         getField (searchHeaders cfg) "X-Engine" = some "browser") ∧
      (cfg.search.engine_mode ≠ "fast" → cfg.search.engine_mode ≠ "quality" →
         getField (searchHeaders cfg) "X-Engine" = none)) ∧
    (cfg.extract.engine_mode = "fast" →
       getField (crawlHeaders cfg) "X-Engine" = some "direct") ∧
    (cfg.extract.engine_mode = "quality" →
       getField (crawlHeaders cfg) "X-Engine" = some "browser") ∧
    (cfg.extract.engine_mode ≠ "fast" → cfg.extract.engine_mode ≠ "quality" →
       getField (crawlHeaders cfg) "X-Engine" = none) := by
  refine ⟨fun hcd => ⟨fun hf => ?_, fun hq => ?_, fun h1 h2 => ?_⟩,
    fun hf => ?_, fun hq => ?_, fun h1 h2 => ?_⟩
  · simp [searchHeaders_engine_char cfg hcd, hf]
  · simp [searchHeaders_engine_char cfg hcd, hq]
  · simp [searchHeaders_engine_char cfg hcd, h1, h2]
  · simp [crawlHeaders_engine_char cfg, hf]
  · simp [crawlHeaders_engine_char cfg, hq]
  · simp [crawlHeaders_engine_char cfg, h1, h2]

/-- C5 witness: `cfgFast` (search engine `fast`, extract engine
`quality`) yields `X-Engine = direct` on the search headers and
`X-Engine = browser` on the extract headers. -/
theorem engine_mode_header_mapping_witness :
    getField (searchHeaders cfgFast) "X-Engine" = some "direct" ∧
    getField (crawlHeaders cfgFast) "X-Engine" = some "browser" :=
  ⟨((engine_mode_header_mapping cfgFast).1 rfl).1 rfl,
   (engine_mode_header_mapping cfgFast).2.2.1 rfl⟩

/-- C6: every boolean toggle mapped to a header satisfies both
biconditionals — toggle true iff the header is present with its fixed
value, toggle false iff the header is absent.  The four search toggles
are mapped to headers inside the `crawl_details` branch, hence stated
under `crawl_details = true`; the ten extract toggles hold
unconditionally. -/
theorem toggle_header_biconditional (cfg : PluginConfig) :
    (cfg.search.crawl_details = true →
      ((cfg.search.remove_pictures = true ↔
          getField (searchHeaders cfg) "X-Retain-Images" = some "none") ∧
       (cfg.search.remove_pictures = false ↔
          getField (searchHeaders cfg) "X-Retain-Images" = none)) ∧
      ((cfg.search.move_links_to_end = true ↔
          getField (searchHeaders cfg) "X-With-Links-Summary" = some "true") ∧
       (cfg.search.move_links_to_end = false ↔
          getField (searchHeaders cfg) "X-With-Links-Summary" = none)) ∧
      ((cfg.search.move_pics_to_end = true ↔
          getField (searchHeaders cfg) "X-With-Images-Summary" = some "true") ∧
       (cfg.search.move_pics_to_end = false ↔
          getField (searchHeaders cfg) "X-With-Images-Summary" = none)) ∧
      ((cfg.search.add_pic_alt = true ↔
          getField (searchHeaders cfg) "X-With-Generated-Alt" = some "true") ∧
       (cfg.search.add_pic_alt = false ↔
          getField (searchHeaders cfg) "X-With-Generated-Alt" = none))) ∧
    ((cfg.extract.follow_redirect = true ↔
        getField (crawlHeaders cfg) "X-Follow-Redirects" = some "true") ∧
     (cfg.extract.follow_redirect = false ↔
        getField (crawlHeaders cfg) "X-Follow-Redirects" = none)) ∧
    ((cfg.extract.use_custom_prehandler_scripts = true ↔
        getField (crawlHeaders cfg) "X-Use-Custom-Prehandler-Scripts" =
          some "true") ∧
     (cfg.extract.use_custom_prehandler_scripts = false ↔
        getField (crawlHeaders cfg) "X-Use-Custom-Prehandler-Scripts" =
          none)) ∧
    ((cfg.extract.include_shadow_dom = true ↔
        getField (crawlHeaders cfg) "X-Include-Shadow-DOM" = some "true") ∧
     (cfg.extract.include_shadow_dom = false ↔
        getField (crawlHeaders cfg) "X-Include-Shadow-DOM" = none)) ∧
    ((cfg.extract.include_iframes = true ↔
        getField (crawlHeaders cfg) "X-Include-Iframes" = some "true") ∧
     (cfg.extract.include_iframes = false ↔
        getField (crawlHeaders cfg) "X-Include-Iframes" = none)) ∧
    ((cfg.extract.remove_pictures = true ↔
        getField (crawlHeaders cfg) "X-Retain-Images" = some "none") ∧
     (cfg.extract.remove_pictures = false ↔
        getField (crawlHeaders cfg) "X-Retain-Images" = none)) ∧
    ((cfg.extract.use_readerlm_v2 = true ↔
        getField (crawlHeaders cfg) "X-Use-ReaderLM-V2" = some "true") ∧
     (cfg.extract.use_readerlm_v2 = false ↔
        getField (crawlHeaders cfg) "X-Use-ReaderLM-V2" = none)) ∧
    ((cfg.extract.move_links_to_end = true ↔
        getField (crawlHeaders cfg) "X-With-Links-Summary" = some "true") ∧
     (cfg.extract.move_links_to_end = false ↔
        getField (crawlHeaders cfg) "X-With-Links-Summary" = none)) ∧
    ((cfg.extract.move_pics_to_end = true ↔
        getField (crawlHeaders cfg) "X-With-Images-Summary" = some "true") ∧
     (cfg.extract.move_pics_to_end = false ↔
        getField (crawlHeaders cfg) "X-With-Images-Summary" = none)) ∧
    ((cfg.extract.add_pic_alt = true ↔
        getField (crawlHeaders cfg) "X-With-Generated-Alt" = some "true") ∧
     (cfg.extract.add_pic_alt = false ↔
        getField (crawlHeaders cfg) "X-With-Generated-Alt" = none)) ∧
    ((cfg.extract.optimize_for_gpt_oss = true ↔
        getField (crawlHeaders cfg) "X-Optimize-For-GPT-OSS" = some "true") ∧
     (cfg.extract.optimize_for_gpt_oss = false ↔
        getField (crawlHeaders cfg) "X-Optimize-For-GPT-OSS" = none)) := by
  refine ⟨fun hcd => ⟨?_, ?_, ?_, ?_⟩, ?_, ?_, ?_, ?_, ?_, ?_, ?_, ?_, ?_, ?_⟩
  exacts [toggle_iff _ _ _ (searchHeaders_retain_char cfg hcd),
    toggle_iff _ _ _ (searchHeaders_links_char cfg hcd),
    toggle_iff _ _ _ (searchHeaders_pics_char cfg hcd),
    toggle_iff _ _ _ (searchHeaders_alt_char cfg hcd),
    toggle_iff _ _ _ (crawlHeaders_follow_char cfg),
    toggle_iff _ _ _ (crawlHeaders_use_scripts_char cfg),
    toggle_iff _ _ _ (crawlHeaders_shadow_char cfg),
    toggle_iff _ _ _ (crawlHeaders_iframes_char cfg),
    toggle_iff _ _ _ (crawlHeaders_retain_char cfg),
    toggle_iff _ _ _ (crawlHeaders_readerlm_char cfg),
    toggle_iff _ _ _ (crawlHeaders_links_char cfg),
    toggle_iff _ _ _ (crawlHeaders_pics_char cfg),
    toggle_iff _ _ _ (crawlHeaders_alt_char cfg),
    toggle_iff _ _ _ (crawlHeaders_optimize_char cfg)]

/-- C6 witness: in `cfgFast`, `remove_pictures = true` yields
`X-Retain-Images = none`-valued header on the search side, while
`follow_redirect = false` leaves `X-Follow-Redirects` absent on the
extract side. -/
theorem toggle_header_biconditional_witness :
    getField (searchHeaders cfgFast) "X-Retain-Images" = some "none" ∧
    getField (crawlHeaders cfgFast) "X-Follow-Redirects" = none :=
  ⟨(((toggle_header_biconditional cfgFast).1 rfl).1).1.mp rfl,
   ((toggle_header_biconditional cfgFast).2.1).2.mp rfl⟩

/-- C7: a non-positive configured timeout emits no `X-Timeout` header; a
positive one emits `X-Timeout` equal to the decimal string of the value —
for the search tool under `crawl_details = true` and for the extract tool
unconditionally. -/
theorem timeout_header_decimal (cfg : PluginConfig) :
    (cfg.search.crawl_details = true →
      (cfg.search.timeout ≤ 0 →
         getField (searchHeaders cfg) "X-Timeout" = none) ∧
      (cfg.search.timeout > 0 →
         getField (searchHeaders cfg) "X-Timeout" =
           some (toString cfg.search.timeout))) ∧
    (cfg.extract.timeout ≤ 0 →
       getField (crawlHeaders cfg) "X-Timeout" = none) ∧
    (cfg.extract.timeout > 0 →
       getField (crawlHeaders cfg) "X-Timeout" =
         some (toString cfg.extract.timeout)) := by
  refine ⟨fun hcd => ⟨fun hle => ?_, fun hgt => ?_⟩,
    fun hle => ?_, fun hgt => ?_⟩
  · rw [searchHeaders_timeout_char cfg hcd, if_neg (by omega)]
  · rw [searchHeaders_timeout_char cfg hcd, if_pos hgt]
  · rw [crawlHeaders_timeout_char cfg, if_neg (by omega)]
  · rw [crawlHeaders_timeout_char cfg, if_pos hgt]

/-- C7 witness: `cfgFast` has search timeout `7` (header `"7"`) and
extract timeout `-3` (header absent). -/
theorem timeout_header_decimal_witness :
    getField (searchHeaders cfgFast) "X-Timeout" = some "7" ∧
    getField (crawlHeaders cfgFast) "X-Timeout" = none :=
  ⟨((timeout_header_decimal cfgFast).1 rfl).2 (by decide),
   (timeout_header_decimal cfgFast).2.1 (by decide)⟩

/-- C8: with `use_custom_prehandler_scripts = true` the usage header is
present, and the list header carries the comma-join of the script list
exactly when the list is non-empty; with the flag false the list header
is never present, even for a non-empty list. -/
theorem prehandler_scripts_header_policy (cfg : PluginConfig) :
    (cfg.extract.use_custom_prehandler_scripts = true →
       getField (crawlHeaders cfg) "X-Use-Custom-Prehandler-Scripts" =
         some "true" ∧
       (cfg.extract.custom_prehandler_scripts_list ≠ [] →
          getField (crawlHeaders cfg) "X-Custom-Prehandler-Scripts-List" =
            some (String.intercalate ","
              cfg.extract.custom_prehandler_scripts_list)) ∧
       (cfg.extract.custom_prehandler_scripts_list = [] →
          getField (crawlHeaders cfg) "X-Custom-Prehandler-Scripts-List" =
            none)) ∧
    (cfg.extract.use_custom_prehandler_scripts = false →
       getField (crawlHeaders cfg) "X-Custom-Prehandler-Scripts-List" =
         none) := by
  refine ⟨fun hu => ⟨?_, fun hne => ?_, fun hnil => ?_⟩, fun hu => ?_⟩
  · simp [crawlHeaders_use_scripts_char cfg, hu]
  · simp [crawlHeaders_scripts_list_char cfg, hu, hne]
  · simp [crawlHeaders_scripts_list_char cfg, hu, hnil]
  · simp [crawlHeaders_scripts_list_char cfg, hu]

/-- C8 witness: `cfgFast` enables the scripts with list `["a", "b"]`,
yielding the usage header and the comma-joined list header `"a,b"`. -/
theorem prehandler_scripts_header_policy_witness :
    getField (crawlHeaders cfgFast) "X-Use-Custom-Prehandler-Scripts" =
      some "true" ∧
    getField (crawlHeaders cfgFast) "X-Custom-Prehandler-Scripts-List" =
      some "a,b" :=
  ⟨((prehandler_scripts_header_policy cfgFast).1 rfl).1,
   ((prehandler_scripts_header_policy cfgFast).1 rfl).2.1 (by decide)⟩

/-- C9: the search body always carries `q = keywords`; it carries
`gl = search_nation` exactly when the nation differs from the
`"not-specified"` sentinel, `hl = search_language` exactly when the
language differs from it, and is independent of `crawl_details`. -/
theorem search_body_fields (cfg : PluginConfig) (kw : Option String)
    (b : Bool) :
    getField (searchBody cfg kw) "q" = some kw ∧
    (cfg.search.search_nation ≠ "not-specified" ↔
       getField (searchBody cfg kw) "gl" =
         some (some cfg.search.search_nation)) ∧
    (cfg.search.search_nation = "not-specified" ↔
       getField (searchBody cfg kw) "gl" = none) ∧
    (cfg.search.search_language ≠ "not-specified" ↔
       getField (searchBody cfg kw) "hl" =
         some (some cfg.search.search_language)) ∧
    (cfg.search.search_language = "not-specified" ↔
       getField (searchBody cfg kw) "hl" = none) ∧
    searchBody { cfg with search := { cfg.search with crawl_details := b } }
        kw =
      searchBody cfg kw := by
  by_cases hn : cfg.search.search_nation = "not-specified" <;>
  by_cases hl : cfg.search.search_language = "not-specified" <;>
    refine ⟨?_, ?_, ?_, ?_, ?_, rfl⟩ <;>
    simp [searchBody, hn, hl, getField_append, getField_cons_self,
      getField_cons_ne, getField_nil]

/-- C10: for every configuration — the empty API key included — both
tools' headers carry `Authorization = "Bearer " ++ jina_api_key` and
`Content-Type = application/json`; no local validation of the key is
performed before the request is built. -/
theorem auth_headers_always_present (cfg : PluginConfig) :
    getField (searchHeaders cfg) "Authorization" =
      some ("Bearer " ++ cfg.provider.jina_api_key) ∧
    getField (searchHeaders cfg) "Content-Type" = some "application/json" ∧
    getField (crawlHeaders cfg) "Authorization" =
      some ("Bearer " ++ cfg.provider.jina_api_key) ∧
    getField (crawlHeaders cfg) "Content-Type" = some "application/json" :=
  ⟨searchHeaders_auth cfg, searchHeaders_content_type cfg,
   crawlHeaders_auth cfg, crawlHeaders_content_type cfg⟩

end WebCrawl
